import Mathlib

/-
Verification of the JWT Bearer grant type of livescale/node-oauth2-server
(lib/grant-types/jwt-bearer.js), as a shallow embedding in Lean 4.

JavaScript values are modelled by a small inductive type with JS truthiness;
asynchronous rejection and synchronous throwing are both modelled by
`Except Err`.  The external collaborators (identity resolver, scope
validator, token generators, expiry policy, token store) are fields of the
embedded grant type, and every embedded operation additionally returns the
list of collaborator invocations it performed, so that "is invoked exactly
once" and "is never invoked" become provable statements.
-/

/-- A JavaScript value, to the granularity the grant-type code inspects:
the code only ever asks whether a value is truthy, and otherwise passes
values through unchanged. -/
inductive JSValue where
  | null : JSValue
  | undefined : JSValue
  | boolean : Bool → JSValue
  | number : Int → JSValue
  | str : String → JSValue
  | obj : Nat → JSValue
deriving DecidableEq, Repr

/-- JavaScript truthiness: `null`, `undefined`, `false`, `0` and the empty
string are falsy, everything else (in our fragment) is truthy. -/
def JSValue.truthy : JSValue → Bool
  | .null => false
  | .undefined => false
  | .boolean b => b
  | .number n => decide (n ≠ 0)
  | .str s => decide (s ≠ "")
  | .obj _ => true

/-- Error kinds of the error classes thrown by the grant type, plus
`typeError` for the JavaScript runtime errors that arise from dereferencing
`undefined` or calling a non-function, and `other` for arbitrary errors
raised by collaborators. -/
inductive ErrKind where
  | invalidArgument : ErrKind
  | invalidRequest : ErrKind
  | invalidGrant : ErrKind
  | invalidScope : ErrKind
  | typeError : ErrKind
  | other : ErrKind
deriving DecidableEq, Repr

/-- An error value: a kind together with its `message` property. -/
structure Err where
  kind : ErrKind
  message : String
deriving DecidableEq, Repr

/-- Modelled from the spec: the error classes live in `lib/errors/` which is
not under the sources being analysed; per the spec an error of a given kind
carries its message verbatim.  `new InvalidArgumentError(msg)`. -/
def InvalidArgumentError (message : String) : Err :=
  ⟨ErrKind.invalidArgument, message⟩

/-- Modelled from the spec: `new InvalidRequestError(msg)`, see
`InvalidArgumentError`. -/
def InvalidRequestError (message : String) : Err :=
  ⟨ErrKind.invalidRequest, message⟩

/-- Modelled from the spec: `new InvalidGrantError(msg)`, see
`InvalidArgumentError`. -/
def InvalidGrantError (message : String) : Err :=
  ⟨ErrKind.invalidGrant, message⟩

/-- The request body, carrying the `assertion` form parameter and the
requested `scope`; either may be any JavaScript value. -/
structure RequestBody where
  assertion : JSValue
  scope : JSValue
deriving DecidableEq, Repr

/-- A request: `body` is `none` when the request object has no `body`
property, in which case `request.body.assertion` raises a `TypeError`. -/
structure Request where
  body : Option RequestBody
deriving DecidableEq, Repr

/-- The token record assembled by `saveToken`, with exactly the five fields
the source constructs, in source order. -/
structure TokenRecord where
  accessToken : JSValue
  accessTokenExpiresAt : JSValue
  refreshToken : JSValue
  refreshTokenExpiresAt : JSValue
  scope : JSValue
deriving DecidableEq, Repr

/-- The host-supplied model object.  `getUser` records only the presence of
a `getUser` method: the JWT bearer grant type checks for it in its
constructor but never invokes it.  `getUserFromJWT` and `saveToken` are
`none` when the model object lacks the method. -/
structure Model where
  getUser : Bool
  getUserFromJWT : Option (JSValue → Except Err JSValue)
  saveToken : Option (TokenRecord → JSValue → JSValue → Except Err JSValue)

/-- The constructed grant type.  The model comes from the options; the
remaining five fields are the producers inherited from
`AbstractGrantType`.  Modelled from the spec: `abstract-grant-type.js` is
not under the sources being analysed, and the spec treats scope
validation, token generation and expiry computation as external
capabilities, so they are abstract fields here.  Argument order follows
the call sites in `jwt-bearer.js`. -/
structure JWTBearerGrantType where
  model : Model
  validateScope : JSValue → JSValue → JSValue → Except Err JSValue
  generateAccessToken : JSValue → JSValue → JSValue → Except Err JSValue
  generateRefreshToken : JSValue → JSValue → JSValue → Except Err JSValue
  getAccessTokenExpiresAt : Except Err JSValue
  getRefreshTokenExpiresAt : Except Err JSValue

/-- The constructor body of `JWTBearerGrantType(options)`: `options.model`
must be truthy (`none` models a falsy or missing model), then
`model.getUser` and `model.saveToken` must be truthy; each failing check
throws an `InvalidArgumentError`.  No other property of the model is
inspected at construction time. -/
def constructorValidate (model : Option Model) : Except Err Unit :=
  match model with
  | none => Except.error (InvalidArgumentError "Missing parameter: `model`")
  | some m =>
    if !m.getUser then
      Except.error (InvalidArgumentError "Invalid argument: model does not implement `getUser()`")
    else if m.saveToken.isNone then
      Except.error (InvalidArgumentError "Invalid argument: model does not implement `saveToken()`")
    else
      Except.ok ()

/-- Modelled from the spec: `AbstractGrantType.prototype.getScope` is
defined in `abstract-grant-type.js`, which is not under the sources being
analysed.  Per the spec, the grant request is an opaque carrier of the
ambient scope input, read from the request body; a missing body makes the
property access raise a `TypeError`. -/
def getScope (request : Request) : Except Err JSValue :=
  match request.body with
  | none => Except.error ⟨ErrKind.typeError, "Cannot read properties of undefined (reading scope)"⟩
  | some body => Except.ok body.scope

/-- Outcome of `getUser`: its result together with the list of assertions
passed to the identity resolver `model.getUserFromJWT`. -/
structure GetUserOutcome where
  result : Except Err JSValue
  resolverCalls : List JSValue
deriving Repr

/-- `JWTBearerGrantType.prototype.getUser(request)`: a falsy
`request.body.assertion` throws `InvalidRequestError` synchronously
(before the promise chain, hence not remapped); otherwise the resolver is
invoked once with the assertion, a falsy resolved user becomes an
`InvalidGrantError` in the `then` handler, and the trailing `catch`
rewraps any error of the chain as an `InvalidGrantError` carrying the
caught error's message.  A model without `getUserFromJWT` makes
`promisify` apply a non-function, a `TypeError`. -/
def JWTBearerGrantType.getUser (g : JWTBearerGrantType) (request : Request) : GetUserOutcome :=
  match request.body with
  | none =>
    ⟨Except.error ⟨ErrKind.typeError, "Cannot read properties of undefined (reading assertion)"⟩, []⟩
  | some body =>
    if !body.assertion.truthy then
      ⟨Except.error (InvalidRequestError "Missing parameter: `assertion`"), []⟩
    else
      match g.model.getUserFromJWT with
      | none =>
        ⟨Except.error ⟨ErrKind.typeError, "this.model.getUserFromJWT is not a function"⟩, []⟩
      | some resolve =>
        let afterThen : Except Err JSValue :=
          match resolve body.assertion with
          | Except.error e => Except.error e
          | Except.ok user =>
            if !user.truthy then
              Except.error (InvalidGrantError "Invalid grant: jwt is invalid")
            else
              Except.ok user
        match afterThen with
        | Except.error e => ⟨Except.error (InvalidGrantError e.message), [body.assertion]⟩
        | Except.ok user => ⟨Except.ok user, [body.assertion]⟩

/-- One invocation of a producer inside `saveToken`, with the arguments it
received. -/
inductive ProducerCall where
  | validateScope : JSValue → JSValue → JSValue → ProducerCall
  | generateAccessToken : JSValue → JSValue → JSValue → ProducerCall
  | generateRefreshToken : JSValue → JSValue → JSValue → ProducerCall
  | getAccessTokenExpiresAt : ProducerCall
  | getRefreshTokenExpiresAt : ProducerCall
deriving DecidableEq, Repr

/-- Outcome of `saveToken`: its result, the producer invocations (the
`fns` array is built eagerly, so all five producers are always invoked),
and the invocations of the store `model.saveToken` with their
`(token, client, user)` arguments. -/
structure SaveTokenOutcome where
  result : Except Err JSValue
  producerCalls : List ProducerCall
  storeCalls : List (TokenRecord × JSValue × JSValue)

/-- `JWTBearerGrantType.prototype.saveToken(user, client, scope)`: the five
producers are invoked eagerly when the `fns` array is built; `Promise.all`
rejects with a producer failure (modelled as the leftmost one) without
calling the store; on five successes the `spread` handler builds the token
record, where the spread parameter `scope` (the validated scope) shadows
the function argument `scope` exactly as in the source, and passes it to
`model.saveToken(token, client, user)`. -/
def JWTBearerGrantType.saveToken (g : JWTBearerGrantType) (user client scope : JSValue) : SaveTokenOutcome :=
  let r1 := g.validateScope user client scope
  let r2 := g.generateAccessToken client user scope
  let r3 := g.generateRefreshToken client user scope
  let r4 := g.getAccessTokenExpiresAt
  let r5 := g.getRefreshTokenExpiresAt
  let calls : List ProducerCall :=
    [ProducerCall.validateScope user client scope,
     ProducerCall.generateAccessToken client user scope,
     ProducerCall.generateRefreshToken client user scope,
     ProducerCall.getAccessTokenExpiresAt,
     ProducerCall.getRefreshTokenExpiresAt]
  match r1, r2, r3, r4, r5 with
  | Except.ok scope, Except.ok accessToken, Except.ok refreshToken,
    Except.ok accessTokenExpiresAt, Except.ok refreshTokenExpiresAt =>
    let token : TokenRecord :=
      ⟨accessToken, accessTokenExpiresAt, refreshToken, refreshTokenExpiresAt, scope⟩
    match g.model.saveToken with
    | none =>
      ⟨Except.error ⟨ErrKind.typeError, "this.model.saveToken is not a function"⟩, calls, []⟩
    | some save => ⟨save token client user, calls, [(token, client, user)]⟩
  | Except.error e, _, _, _, _ => ⟨Except.error e, calls, []⟩
  | _, Except.error e, _, _, _ => ⟨Except.error e, calls, []⟩
  | _, _, Except.error e, _, _ => ⟨Except.error e, calls, []⟩
  | _, _, _, Except.error e, _ => ⟨Except.error e, calls, []⟩
  | _, _, _, _, Except.error e => ⟨Except.error e, calls, []⟩

/-- Outcome of `handle`: its result and the collaborator invocations it
performed, split by collaborator. -/
structure HandleOutcome where
  result : Except Err JSValue
  resolverCalls : List JSValue
  producerCalls : List ProducerCall
  storeCalls : List (TokenRecord × JSValue × JSValue)

/-- `JWTBearerGrantType.prototype.handle(request, client)`: a falsy
`request` (modelled by `none`) or a falsy `client` throws
`InvalidArgumentError` before anything else runs; then the requested scope
is read, the user resolved, and `saveToken(user, client, scope)` called on
success. -/
def JWTBearerGrantType.handle (g : JWTBearerGrantType) (request : Option Request) (client : JSValue) : HandleOutcome :=
  match request with
  | none => ⟨Except.error (InvalidArgumentError "Missing parameter: `request`"), [], [], []⟩
  | some request =>
    if !client.truthy then
      ⟨Except.error (InvalidArgumentError "Missing parameter: `client`"), [], [], []⟩
    else
      match getScope request with
      | Except.error e => ⟨Except.error e, [], [], []⟩
      | Except.ok scope =>
        let gu := g.getUser request
        match gu.result with
        | Except.error e => ⟨Except.error e, gu.resolverCalls, [], []⟩
        | Except.ok user =>
          let st := g.saveToken user client scope
          ⟨st.result, gu.resolverCalls, st.producerCalls, st.storeCalls⟩

/-! Concrete fixtures used by witnesses and counterexamples. -/

/-- A resolver that always resolves to the user object `obj 1`. -/
def resolve0 : JSValue → Except Err JSValue := fun _ => Except.ok (JSValue.obj 1)

/-- A store that always returns the stored-token object `obj 9`. -/
def store0 : TokenRecord → JSValue → JSValue → Except Err JSValue :=
  fun _ _ _ => Except.ok (JSValue.obj 9)

/-- A fully equipped model. -/
def model0 : Model := ⟨true, some resolve0, some store0⟩

/-- A grant type whose producers all succeed with fixed values. -/
def g0 : JWTBearerGrantType :=
  ⟨model0,
   fun _ _ _ => Except.ok (JSValue.str "read"),
   fun _ _ _ => Except.ok (JSValue.str "tokA"),
   fun _ _ _ => Except.ok (JSValue.str "tokR"),
   Except.ok (JSValue.number 100),
   Except.ok (JSValue.number 200)⟩

/-- A well-formed request with a non-empty assertion. -/
def req0 : Request := ⟨some ⟨JSValue.str "jwt", JSValue.str "read"⟩⟩

/-- A request whose assertion is the empty string. -/
def reqEmptyAssertion : Request := ⟨some ⟨JSValue.str "", JSValue.str "read"⟩⟩

/-- A request without a body. -/
def reqNoBody : Request := ⟨none⟩

/-- A model whose resolver always fails with an arbitrary-kind error. -/
def modelResolverFails : Model :=
  ⟨true, some (fun _ => Except.error ⟨ErrKind.other, "boom"⟩), some store0⟩

/-- A grant type over `modelResolverFails`, other collaborators as `g0`. -/
def gResolverFails : JWTBearerGrantType :=
  ⟨modelResolverFails, g0.validateScope, g0.generateAccessToken, g0.generateRefreshToken,
   g0.getAccessTokenExpiresAt, g0.getRefreshTokenExpiresAt⟩

/-- A model whose resolver resolves to `null`. -/
def modelResolverNull : Model :=
  ⟨true, some (fun _ => Except.ok JSValue.null), some store0⟩

/-- A grant type over `modelResolverNull`, other collaborators as `g0`. -/
def gResolverNull : JWTBearerGrantType :=
  ⟨modelResolverNull, g0.validateScope, g0.generateAccessToken, g0.generateRefreshToken,
   g0.getAccessTokenExpiresAt, g0.getRefreshTokenExpiresAt⟩

/-- A model with `getUser` and `saveToken` but no `getUserFromJWT`. -/
def modelNoJWT : Model := ⟨true, none, some store0⟩

/-- A grant type over `modelNoJWT`, other collaborators as `g0`. -/
def gNoJWT : JWTBearerGrantType :=
  ⟨modelNoJWT, g0.validateScope, g0.generateAccessToken, g0.generateRefreshToken,
   g0.getAccessTokenExpiresAt, g0.getRefreshTokenExpiresAt⟩

/-- A grant type whose scope validator rejects. -/
def gScopeFails : JWTBearerGrantType :=
  ⟨model0, fun _ _ _ => Except.error ⟨ErrKind.invalidScope, "Invalid scope: Requested scope is invalid"⟩,
   g0.generateAccessToken, g0.generateRefreshToken,
   g0.getAccessTokenExpiresAt, g0.getRefreshTokenExpiresAt⟩

/-- A grant type whose scope validator narrows the requested scope. -/
def gNarrow : JWTBearerGrantType :=
  ⟨model0, fun _ _ _ => Except.ok (JSValue.str "narrowed"),
   g0.generateAccessToken, g0.generateRefreshToken,
   g0.getAccessTokenExpiresAt, g0.getRefreshTokenExpiresAt⟩

/-- Claim C5, counterexample: at a request whose assertion is the empty
string, the message of the `InvalidRequest` error is
"Missing parameter: `assertion`" with backticks around the parameter name,
which differs from the message the claim states. -/
theorem c5_counterexample :
    (g0.getUser reqEmptyAssertion).result
      = Except.error ⟨ErrKind.invalidRequest, "Missing parameter: `assertion`"⟩ ∧
    "Missing parameter: `assertion`" ≠ "Missing parameter: assertion" := by
  exact ⟨rfl, by decide⟩

/-- Claim C5 (amended): for every request carrying a body whose assertion
is falsy (empty or absent), `getUser` fails with `InvalidRequest` and
message "Missing parameter: `assertion`" (the parameter name is
backtick-quoted in the message), and the identity resolver is never
invoked. -/
theorem c5_missing_assertion (g : JWTBearerGrantType) (request : Request) (body : RequestBody)
    (hbody : request.body = some body) (hfalsy : body.assertion.truthy = false) :
    (g.getUser request).result
      = Except.error ⟨ErrKind.invalidRequest, "Missing parameter: `assertion`"⟩ ∧
    (g.getUser request).resolverCalls = [] := by
  simp [JWTBearerGrantType.getUser, hbody, hfalsy, InvalidRequestError]

/-- Witness for C5 at the concrete empty-assertion request. -/
theorem c5_missing_assertion_witness :
    (g0.getUser reqEmptyAssertion).result
      = Except.error ⟨ErrKind.invalidRequest, "Missing parameter: `assertion`"⟩ ∧
    (g0.getUser reqEmptyAssertion).resolverCalls = [] :=
  c5_missing_assertion g0 reqEmptyAssertion ⟨JSValue.str "", JSValue.str "read"⟩ rfl (by decide)

/-- Claim C6: when the resolver raises an error with message M, `getUser`
fails with an `InvalidGrant` error whose message equals M, whatever the
kind of the underlying error, and the resolver was invoked exactly once
with the assertion. -/
theorem c6_resolver_error_normalized (g : JWTBearerGrantType) (request : Request)
    (body : RequestBody) (resolve : JSValue → Except Err JSValue) (e : Err)
    (hbody : request.body = some body) (htruthy : body.assertion.truthy = true)
    (hres : g.model.getUserFromJWT = some resolve)
    (herr : resolve body.assertion = Except.error e) :
    (g.getUser request).result = Except.error ⟨ErrKind.invalidGrant, e.message⟩ ∧
    (g.getUser request).resolverCalls = [body.assertion] := by
  simp [JWTBearerGrantType.getUser, hbody, htruthy, hres, herr, InvalidGrantError]

/-- Witness for C6 at the concrete failing resolver of kind `other`. -/
theorem c6_resolver_error_normalized_witness :
    (gResolverFails.getUser req0).result = Except.error ⟨ErrKind.invalidGrant, "boom"⟩ ∧
    (gResolverFails.getUser req0).resolverCalls = [JSValue.str "jwt"] :=
  c6_resolver_error_normalized gResolverFails req0 ⟨JSValue.str "jwt", JSValue.str "read"⟩
    (fun _ => Except.error ⟨ErrKind.other, "boom"⟩) ⟨ErrKind.other, "boom"⟩
    rfl (by decide) rfl rfl

/-- Claim C7: when the resolver completes without error but returns a
falsy user, `getUser` fails with `InvalidGrant` and message
"Invalid grant: jwt is invalid". -/
theorem c7_resolver_no_user (g : JWTBearerGrantType) (request : Request)
    (body : RequestBody) (resolve : JSValue → Except Err JSValue) (user : JSValue)
    (hbody : request.body = some body) (htruthy : body.assertion.truthy = true)
    (hres : g.model.getUserFromJWT = some resolve)
    (hok : resolve body.assertion = Except.ok user) (hfalsy : user.truthy = false) :
    (g.getUser request).result
      = Except.error ⟨ErrKind.invalidGrant, "Invalid grant: jwt is invalid"⟩ := by
  simp [JWTBearerGrantType.getUser, hbody, htruthy, hres, hok, hfalsy, InvalidGrantError]

/-- Witness for C7 at the concrete resolver returning `null`. -/
theorem c7_resolver_no_user_witness :
    (gResolverNull.getUser req0).result
      = Except.error ⟨ErrKind.invalidGrant, "Invalid grant: jwt is invalid"⟩ :=
  c7_resolver_no_user gResolverNull req0 ⟨JSValue.str "jwt", JSValue.str "read"⟩
    (fun _ => Except.ok JSValue.null) JSValue.null rfl (by decide) rfl rfl (by decide)

/-- Claim C9: each of the five falsy values returned by the resolver is
treated identically as "no user" and yields the same `InvalidGrant`
failure, while a truthy resolved user is propagated unchanged. -/
theorem c9_falsy_user_rejected (g : JWTBearerGrantType) (request : Request)
    (body : RequestBody) (resolve : JSValue → Except Err JSValue) (user : JSValue)
    (hbody : request.body = some body) (htruthy : body.assertion.truthy = true)
    (hres : g.model.getUserFromJWT = some resolve)
    (hok : resolve body.assertion = Except.ok user) :
    ((user = JSValue.null ∨ user = JSValue.undefined ∨ user = JSValue.boolean false ∨
        user = JSValue.number 0 ∨ user = JSValue.str "") →
      (g.getUser request).result
        = Except.error ⟨ErrKind.invalidGrant, "Invalid grant: jwt is invalid"⟩) ∧
    (user.truthy = true → (g.getUser request).result = Except.ok user) := by
  constructor
  · intro hfalsy
    have h : user.truthy = false := by
      rcases hfalsy with h | h | h | h | h <;> subst h <;> decide
    simp [JWTBearerGrantType.getUser, hbody, htruthy, hres, hok, h, InvalidGrantError]
  · intro h
    simp [JWTBearerGrantType.getUser, hbody, htruthy, hres, hok, h]

/-- Witness for C9 at the resolver returning the truthy user `obj 1`. -/
theorem c9_falsy_user_rejected_witness :
    ((JSValue.obj 1 = JSValue.null ∨ JSValue.obj 1 = JSValue.undefined ∨
        JSValue.obj 1 = JSValue.boolean false ∨ JSValue.obj 1 = JSValue.number 0 ∨
        JSValue.obj 1 = JSValue.str "") →
      (g0.getUser req0).result
        = Except.error ⟨ErrKind.invalidGrant, "Invalid grant: jwt is invalid"⟩) ∧
    ((JSValue.obj 1).truthy = true → (g0.getUser req0).result = Except.ok (JSValue.obj 1)) :=
  c9_falsy_user_rejected g0 req0 ⟨JSValue.str "jwt", JSValue.str "read"⟩
    resolve0 (JSValue.obj 1) rfl (by decide) rfl rfl

/-- Claim C10: when the request has no body, `getUser` fails by
dereferencing the missing body: a `TypeError`-like failure whose kind is
none of the grant-level error kinds, and no collaborator runs. -/
theorem c10_missing_body (g : JWTBearerGrantType) (request : Request)
    (hbody : request.body = none) :
    (∃ e, (g.getUser request).result = Except.error e ∧
      e.kind = ErrKind.typeError ∧
      e.kind ≠ ErrKind.invalidArgument ∧
      e.kind ≠ ErrKind.invalidRequest ∧
      e.kind ≠ ErrKind.invalidGrant) ∧
    (g.getUser request).resolverCalls = [] := by
  refine ⟨⟨⟨ErrKind.typeError, "Cannot read properties of undefined (reading assertion)"⟩, ?_, rfl, by decide, by decide, by decide⟩, ?_⟩ <;>
    simp [JWTBearerGrantType.getUser, hbody]

/-- Witness for C10 at the concrete body-less request. -/
theorem c10_missing_body_witness :
    (∃ e, (g0.getUser reqNoBody).result = Except.error e ∧
      e.kind = ErrKind.typeError ∧
      e.kind ≠ ErrKind.invalidArgument ∧
      e.kind ≠ ErrKind.invalidRequest ∧
      e.kind ≠ ErrKind.invalidGrant) ∧
    (g0.getUser reqNoBody).resolverCalls = [] :=
  c10_missing_body g0 reqNoBody rfl

/-- Claim C1: on a successful grant where the producers return S, A, R,
Ea, Er, the store receives exactly one call, with the record
assembled from exactly those five values, the client and the resolved
user, and the store's return value is the return value of `handle`. -/
theorem c1_persist_and_return (g : JWTBearerGrantType) (request : Request)
    (body : RequestBody) (client : JSValue) (resolve : JSValue → Except Err JSValue)
    (store : TokenRecord → JSValue → JSValue → Except Err JSValue)
    (scope user S A R Ea Er : JSValue)
    (hclient : client.truthy = true)
    (hbody : request.body = some body)
    (hscope : getScope request = Except.ok scope)
    (hres : g.model.getUserFromJWT = some resolve)
    (hassert : body.assertion.truthy = true)
    (hok : resolve body.assertion = Except.ok user)
    (huser : user.truthy = true)
    (hS : g.validateScope user client scope = Except.ok S)
    (hA : g.generateAccessToken client user scope = Except.ok A)
    (hR : g.generateRefreshToken client user scope = Except.ok R)
    (hEa : g.getAccessTokenExpiresAt = Except.ok Ea)
    (hEr : g.getRefreshTokenExpiresAt = Except.ok Er)
    (hstore : g.model.saveToken = some store) :
    (g.handle (some request) client).storeCalls = [(⟨A, Ea, R, Er, S⟩, client, user)] ∧
    (g.handle (some request) client).result = store ⟨A, Ea, R, Er, S⟩ client user := by
  have hgu : g.getUser request = ⟨Except.ok user, [body.assertion]⟩ := by
    simp [JWTBearerGrantType.getUser, hbody, hassert, hres, hok, huser]
  simp [JWTBearerGrantType.handle, hclient, hscope, hgu,
    JWTBearerGrantType.saveToken, hS, hA, hR, hEa, hEr, hstore]

/-- Witness for C1 at the all-succeeding concrete grant type `g0`. -/
theorem c1_persist_and_return_witness :
    (g0.handle (some req0) (JSValue.obj 7)).storeCalls
      = [(⟨JSValue.str "tokA", JSValue.number 100, JSValue.str "tokR", JSValue.number 200,
           JSValue.str "read"⟩, JSValue.obj 7, JSValue.obj 1)] ∧
    (g0.handle (some req0) (JSValue.obj 7)).result
      = store0 ⟨JSValue.str "tokA", JSValue.number 100, JSValue.str "tokR", JSValue.number 200,
          JSValue.str "read"⟩ (JSValue.obj 7) (JSValue.obj 1) :=
  c1_persist_and_return g0 req0 ⟨JSValue.str "jwt", JSValue.str "read"⟩ (JSValue.obj 7)
    resolve0 store0 (JSValue.str "read") (JSValue.obj 1) (JSValue.str "read")
    (JSValue.str "tokA") (JSValue.str "tokR") (JSValue.number 100) (JSValue.number 200)
    rfl rfl rfl rfl (by decide) rfl rfl rfl rfl rfl rfl rfl rfl

/-- Claim C2: if any one of the five producers fails, `saveToken` fails
and the store is never invoked, so nothing is persisted. -/
theorem c2_no_partial_persistence (g : JWTBearerGrantType) (user client scope : JSValue)
    (h : (∃ e, g.validateScope user client scope = Except.error e) ∨
         (∃ e, g.generateAccessToken client user scope = Except.error e) ∨
         (∃ e, g.generateRefreshToken client user scope = Except.error e) ∨
         (∃ e, g.getAccessTokenExpiresAt = Except.error e) ∨
         (∃ e, g.getRefreshTokenExpiresAt = Except.error e)) :
    (g.saveToken user client scope).storeCalls = [] ∧
    ∃ e, (g.saveToken user client scope).result = Except.error e := by
  cases h1 : g.validateScope user client scope <;>
  cases h2 : g.generateAccessToken client user scope <;>
  cases h3 : g.generateRefreshToken client user scope <;>
  cases h4 : g.getAccessTokenExpiresAt <;>
  cases h5 : g.getRefreshTokenExpiresAt <;>
  simp_all [JWTBearerGrantType.saveToken]

/-- Witness for C2 at the concrete grant type whose scope validator
rejects. -/
theorem c2_no_partial_persistence_witness :
    (gScopeFails.saveToken (JSValue.obj 1) (JSValue.obj 7) (JSValue.str "read")).storeCalls = [] ∧
    ∃ e, (gScopeFails.saveToken (JSValue.obj 1) (JSValue.obj 7) (JSValue.str "read")).result
      = Except.error e :=
  c2_no_partial_persistence gScopeFails (JSValue.obj 1) (JSValue.obj 7) (JSValue.str "read")
    (Or.inl ⟨⟨ErrKind.invalidScope, "Invalid scope: Requested scope is invalid"⟩, rfl⟩)

/-- Claim C3: the code contradicts the fail-fast intent.  The model
`modelNoJWT` supplies `getUser` and `saveToken` but not `getUserFromJWT`,
the identity-resolution method that request handling actually invokes: the
constructor accepts it, and the absence is first detected at request time
as a `TypeError`, not as an `InvalidArgument` at construction. -/
theorem c3_constructor_misses_resolver :
    constructorValidate (some modelNoJWT) = Except.ok () ∧
    modelNoJWT.getUserFromJWT = none ∧
    (∃ e, (gNoJWT.getUser req0).result = Except.error e ∧ e.kind = ErrKind.typeError ∧
      e.kind ≠ ErrKind.invalidArgument) := by
  refine ⟨rfl, rfl, ⟨ErrKind.typeError, "this.model.getUserFromJWT is not a function"⟩,
    rfl, rfl, by decide⟩

/-- Claim C4: when `request` or `client` is absent, `handle` fails with
`InvalidArgument` and no collaborator of any kind is invoked. -/
theorem c4_missing_request_or_client (g : JWTBearerGrantType) (request : Option Request)
    (client : JSValue) (h : request = none ∨ client.truthy = false) :
    (∃ msg, (g.handle request client).result
      = Except.error ⟨ErrKind.invalidArgument, msg⟩) ∧
    (g.handle request client).resolverCalls = [] ∧
    (g.handle request client).producerCalls = [] ∧
    (g.handle request client).storeCalls = [] := by
  rcases h with h | h
  · subst h
    exact ⟨⟨"Missing parameter: `request`", rfl⟩, rfl, rfl, rfl⟩
  · cases request with
    | none => exact ⟨⟨"Missing parameter: `request`", rfl⟩, rfl, rfl, rfl⟩
    | some r =>
      refine ⟨⟨"Missing parameter: `client`", ?_⟩, ?_, ?_, ?_⟩ <;>
        simp [JWTBearerGrantType.handle, h, InvalidArgumentError]

/-- Witness for C4 at an absent request. -/
theorem c4_missing_request_or_client_witness :
    (∃ msg, (g0.handle none (JSValue.obj 7)).result
      = Except.error ⟨ErrKind.invalidArgument, msg⟩) ∧
    (g0.handle none (JSValue.obj 7)).resolverCalls = [] ∧
    (g0.handle none (JSValue.obj 7)).producerCalls = [] ∧
    (g0.handle none (JSValue.obj 7)).storeCalls = [] :=
  c4_missing_request_or_client g0 none (JSValue.obj 7) (Or.inl rfl)

/-- Claim C8: on a successful grant the five producers are invoked with
the requested scope taken from the request before user resolution (the
generators receive the unvalidated scope), while the scope persisted in
the token record is the validated scope S. -/
theorem c8_generators_get_requested_scope (g : JWTBearerGrantType) (request : Request)
    (body : RequestBody) (client : JSValue) (resolve : JSValue → Except Err JSValue)
    (store : TokenRecord → JSValue → JSValue → Except Err JSValue)
    (scope user S A R Ea Er : JSValue)
    (hclient : client.truthy = true)
    (hbody : request.body = some body)
    (hscope : getScope request = Except.ok scope)
    (hres : g.model.getUserFromJWT = some resolve)
    (hassert : body.assertion.truthy = true)
    (hok : resolve body.assertion = Except.ok user)
    (huser : user.truthy = true)
    (hS : g.validateScope user client scope = Except.ok S)
    (hA : g.generateAccessToken client user scope = Except.ok A)
    (hR : g.generateRefreshToken client user scope = Except.ok R)
    (hEa : g.getAccessTokenExpiresAt = Except.ok Ea)
    (hEr : g.getRefreshTokenExpiresAt = Except.ok Er)
    (hstore : g.model.saveToken = some store) :
    (g.handle (some request) client).producerCalls
      = [ProducerCall.validateScope user client scope,
         ProducerCall.generateAccessToken client user scope,
         ProducerCall.generateRefreshToken client user scope,
         ProducerCall.getAccessTokenExpiresAt,
         ProducerCall.getRefreshTokenExpiresAt] ∧
    ((g.handle (some request) client).storeCalls.map fun c => c.1.scope) = [S] := by
  have hgu : g.getUser request = ⟨Except.ok user, [body.assertion]⟩ := by
    simp [JWTBearerGrantType.getUser, hbody, hassert, hres, hok, huser]
  simp [JWTBearerGrantType.handle, hclient, hscope, hgu,
    JWTBearerGrantType.saveToken, hS, hA, hR, hEa, hEr, hstore]

/-- Witness for C8 at the concrete grant type whose validator narrows the
requested scope "read" to "narrowed": the generators still receive
"read", the persisted scope is "narrowed". -/
theorem c8_generators_get_requested_scope_witness :
    (gNarrow.handle (some req0) (JSValue.obj 7)).producerCalls
      = [ProducerCall.validateScope (JSValue.obj 1) (JSValue.obj 7) (JSValue.str "read"),
         ProducerCall.generateAccessToken (JSValue.obj 7) (JSValue.obj 1) (JSValue.str "read"),
         ProducerCall.generateRefreshToken (JSValue.obj 7) (JSValue.obj 1) (JSValue.str "read"),
         ProducerCall.getAccessTokenExpiresAt,
         ProducerCall.getRefreshTokenExpiresAt] ∧
    ((gNarrow.handle (some req0) (JSValue.obj 7)).storeCalls.map fun c => c.1.scope)
      = [JSValue.str "narrowed"] :=
  c8_generators_get_requested_scope gNarrow req0 ⟨JSValue.str "jwt", JSValue.str "read"⟩
    (JSValue.obj 7) resolve0 store0 (JSValue.str "read") (JSValue.obj 1)
    (JSValue.str "narrowed") (JSValue.str "tokA") (JSValue.str "tokR")
    (JSValue.number 100) (JSValue.number 200)
    rfl rfl rfl rfl (by decide) rfl rfl rfl rfl rfl rfl rfl rfl
